import Mathlib

/-!
Verification development for the telemetry relay (Express + PostHog backend).

The definitions below are a shallow embedding of `src/index.ts` and its
`utils.ts` helpers.  Cookie maps are association lists from cookie names to
string values; JavaScript `undefined` is `Option.none`; JavaScript object
literals with possibly-undefined values are association lists of
`String × Option PValue`, where a later binding overrides an earlier one and a
key whose final value is `none` never reaches the serialized event (matching
both `removeUndefinedValues` and JSON serialization, which drop
null/undefined).  The nondeterministic `uuidv7()` calls are passed in as
explicit generator parameters.
-/

/-- Values that can appear in an event property bag (strings, booleans,
numbers). -/
inductive PValue where
  | s (v : String)
  | b (v : Bool)
  | i (v : Int)
deriving DecidableEq, Repr

/-- Prefix test on character lists. -/
def startsL : List Char → List Char → Bool
  | [], _ => true
  | _ :: _, [] => false
  | p :: ps, c :: cs => p = c && startsL ps cs

/-- Contiguous-subsequence test on character lists. -/
def hasSeq (pat : List Char) : List Char → Bool
  | [] => startsL pat []
  | c :: cs => startsL pat (c :: cs) || hasSeq pat cs

/-- Embedding of JavaScript `String.prototype.includes`. -/
def strHas (s sub : String) : Bool := hasSeq sub.data s.data

/-- Lower-case a string character by character (for the case-insensitive
`/mobile/i` and `/tablet/i` tests). -/
def lowerStr (s : String) : String := String.mk (s.data.map Char.toLower)

/-- Maximal leading digit run; fails when empty.  Models `(\d+)` anchored at
the current position. -/
def numAfter (cs : List Char) : Option String :=
  let d := cs.takeWhile Char.isDigit
  if d.isEmpty then none else some (String.mk d)

/-- Models `(\d+<sep>\d+)` anchored at the current position (e.g. the
`(\d+\.\d+)` and `(\d+_\d+)` capture groups of the source's regexes). -/
def numPairAfter (sep : Char) (cs : List Char) : Option String :=
  let d1 := cs.takeWhile Char.isDigit
  if d1.isEmpty then none
  else
    match cs.dropWhile Char.isDigit with
    | c :: r2 =>
      if c = sep then
        let d2 := r2.takeWhile Char.isDigit
        if d2.isEmpty then none else some (String.mk (d1 ++ c :: d2))
      else none
    | [] => none

/-- Strip a literal pattern from the front of a character list. -/
def peelL : List Char → List Char → Option (List Char)
  | [], cs => some cs
  | _ :: _, [] => none
  | p :: ps, c :: cs => if p = c then peelL ps cs else none

/-- Scan left to right for the first position where the literal pattern
matches and the extractor succeeds on the remainder; models an unanchored
JavaScript regex `pat(...)` whose captured part is handled by `ext`. -/
def scanFor (pat : List Char) (ext : List Char → Option String) : List Char → Option String
  | [] =>
    match peelL pat [] with
    | some rest => ext rest
    | none => none
  | c :: cs =>
    match peelL pat (c :: cs) with
    | some rest =>
      match ext rest with
      | some v => some v
      | none => scanFor pat ext cs
    | none => scanFor pat ext cs

/-- Scan for two alternative literal patterns (models `(?:MSIE |rv:)(\d+)`). -/
def scanFor2 (p1 p2 : List Char) (ext : List Char → Option String) : List Char → Option String
  | [] => none
  | c :: cs =>
    match peelL p1 (c :: cs) with
    | some rest =>
      match ext rest with
      | some v => some v
      | none => scanFor2 p1 p2 ext cs
    | none =>
      match peelL p2 (c :: cs) with
      | some rest =>
        match ext rest with
        | some v => some v
        | none => scanFor2 p1 p2 ext cs
      | none => scanFor2 p1 p2 ext cs

/-- Models `userAgent.match(/pre(\d+)/)?.[1]`. -/
def reNum (pre : String) (s : String) : Option String := scanFor pre.data numAfter s.data

/-- Models `userAgent.match(/pre(\d+<sep>\d+)/)?.[1]`. -/
def reNumPair (pre : String) (sep : Char) (s : String) : Option String :=
  scanFor pre.data (numPairAfter sep) s.data

/-- Models `userAgent.match(/(?:MSIE |rv:)(\d+)/)?.[1]`. -/
def reMSIE (s : String) : Option String := scanFor2 "MSIE ".data "rv:".data numAfter s.data

/-- Hexadecimal digit value. -/
def hexVal? (c : Char) : Option Nat :=
  if c.isDigit then some (c.toNat - 48)
  else if 'a' ≤ c ∧ c ≤ 'f' then some (c.toNat - 87)
  else if 'A' ≤ c ∧ c ≤ 'F' then some (c.toNat - 55)
  else none

/-- Percent-decoding as performed by `URLSearchParams`: `+` becomes a space
and `%XX` becomes the byte `XX` (multi-byte UTF-8 sequences are modelled
byte-wise); malformed escapes are kept literally. -/
def pctDecode : List Char → List Char
  | [] => []
  | '%' :: c1 :: c2 :: rest =>
    match hexVal? c1, hexVal? c2 with
    | some h1, some h2 => Char.ofNat (16 * h1 + h2) :: pctDecode rest
    | _, _ => '%' :: pctDecode (c1 :: c2 :: rest)
  | '+' :: rest => ' ' :: pctDecode rest
  | c :: rest => c :: pctDecode rest
termination_by cs => cs.length
decreasing_by all_goals simp <;> omega

/-- Split a character list on a separator character. -/
def splitOnChar (sep : Char) : List Char → List (List Char)
  | [] => [[]]
  | c :: cs =>
    if c = sep then [] :: splitOnChar sep cs
    else
      match splitOnChar sep cs with
      | [] => [[c]]
      | g :: gs => (c :: g) :: gs

/-- Model of `new URLSearchParams(search)`: strip one leading `?`, split on
`&`, drop empty segments, split each segment at the first `=` and
percent-decode keys and values. -/
def parseQuery (search : String) : List (String × String) :=
  let cs := match search.data with
    | '?' :: rest => rest
    | l => l
  (splitOnChar '&' cs).filterMap fun seg =>
    if seg.isEmpty then none
    else
      let k := seg.takeWhile (· ≠ '=')
      let v := match seg.dropWhile (· ≠ '=') with
        | [] => []
        | _ :: t => t
      some (String.mk (pctDecode k), String.mk (pctDecode v))

/-- Model of `urlParams.get(name)`: first value for the name, else null. -/
def getParam (search name : String) : Option String :=
  ((parseQuery search).find? (fun p => p.1 == name)).map (·.2)

/-- Scheme characters after the first (RFC 3986 / WHATWG). -/
def isSchemeChar (c : Char) : Bool := c.isAlphanum || c = '+' || c = '-' || c = '.'

/-- Characters after the last `@` of a list (drops any userinfo part). -/
def afterLastAt (cs : List Char) : List Char :=
  (cs.reverse.takeWhile (· ≠ '@')).reverse

/-- Model of the platform `new URL(u).hostname` used by the source, restricted
to authority-based URLs: the string must start with a scheme followed by
`://` and a nonempty host; userinfo and port are stripped and the host is
lower-cased.  A `none` result models the `new URL` constructor throwing. -/
def parseURLHostname (url : String) : Option String :=
  match url.data with
  | [] => none
  | c :: rest =>
    if c.isAlpha then
      match (rest.dropWhile isSchemeChar) with
      | ':' :: '/' :: '/' :: rest2 =>
        let auth := rest2.takeWhile (fun ch => (ch != '/') && (ch != '?') && (ch != '#'))
        let host := (afterLastAt auth).takeWhile (· ≠ ':')
        if host.isEmpty then none else some (String.mk (host.map Char.toLower))
      | _ => none
    else none

/-- JavaScript truthiness of a possibly-absent string (`!!v`): true exactly
when the value is present and non-empty. -/
def jsTruthy : Option String → Bool
  | some v => v != ""
  | none => false

/-- JavaScript nullish coalescing `a ?? b` on possibly-absent strings. -/
def jsNullish (a b : Option String) : Option String :=
  match a with
  | some v => some v
  | none => b

/-- JavaScript `a || b` on possibly-absent strings: `b` whenever `a` is
absent or empty. -/
def jsOr (a b : Option String) : Option String :=
  match a with
  | some v => if v != "" then some v else b
  | none => b

/-- Cookie lookup (`req.cookies.name`). -/
def lookupCookie (cookies : List (String × String)) (k : String) : Option String :=
  (cookies.find? (fun p => p.1 == k)).map (·.2)

/-- The identifier set produced by `getIdsFromCookies`. -/
structure Ids where
  organization_slug : Option String
  project_ref : Option String
  user_id : Option String
  anonymous_id : String
  session_id : String
deriving DecidableEq, Repr

/-- Embedding of `getIdsFromCookies` (utils): `organization_slug`,
`project_ref` and `user_id` pass through from the `organization_id`,
`project_id` and `user_id` cookies; `anonymous_id` and `session_id` fall back
to freshly generated UUIDv7 values (passed here as `genAnon`/`genSess`) via
nullish coalescing. -/
def getIdsFromCookies (cookies : List (String × String)) (genAnon genSess : String) : Ids :=
  ⟨lookupCookie cookies "organization_id",
   lookupCookie cookies "project_id",
   lookupCookie cookies "user_id",
   (lookupCookie cookies "anonymous_id").getD genAnon,
   (lookupCookie cookies "session_id").getD genSess⟩

/-- Result of `getBrowserInfo`. -/
structure BrowserInfo where
  browser : Option String
  version : Option String
deriving DecidableEq, Repr

/-- Embedding of `getBrowserInfo` (utils): ordered substring match
Chrome, Firefox, Safari (guarded again by the absence of Chrome), Edge,
MSIE/Trident, each with its version-extraction regex. -/
def getBrowserInfo (userAgent : String) : BrowserInfo :=
  if strHas userAgent "Chrome" then ⟨some "Chrome", reNum "Chrome/" userAgent⟩
  else if strHas userAgent "Firefox" then ⟨some "Firefox", reNum "Firefox/" userAgent⟩
  else if strHas userAgent "Safari" then
    (if !(strHas userAgent "Chrome") then ⟨some "Safari", reNum "Version/" userAgent⟩
     else ⟨none, none⟩)
  else if strHas userAgent "Edge" then ⟨some "Edge", reNum "Edge/" userAgent⟩
  else if strHas userAgent "MSIE" || strHas userAgent "Trident" then
    ⟨some "Internet Explorer", reMSIE userAgent⟩
  else ⟨none, none⟩

/-- Result of `getDeviceAndOS`. -/
structure DeviceOS where
  deviceType : Option String
  os : Option String
  osVersion : Option String
deriving DecidableEq, Repr

/-- Embedding of `getDeviceAndOS` (utils).  Note that in the source the
Android and iOS branches assign the version-pattern match to the `os`
variable itself (`os = userAgent.match(/Android (\d+\.\d+)/)?.[1]`),
overwriting the just-assigned OS name and leaving `osVersion` unset; the
embedding mirrors the final value of each variable. -/
def getDeviceAndOS (userAgent : String) : DeviceOS :=
  let deviceType : Option String :=
    if strHas (lowerStr userAgent) "mobile" then some "Mobile"
    else if strHas (lowerStr userAgent) "tablet" then some "Tablet"
    else some "Desktop"
  if strHas userAgent "Win" then
    ⟨deviceType, some "Windows", reNumPair "Windows NT " '.' userAgent⟩
  else if strHas userAgent "Mac" then
    ⟨deviceType, some "MacOS", reNumPair "Mac OS X " '_' userAgent⟩
  else if strHas userAgent "Linux" then
    ⟨deviceType, some "Linux", none⟩
  else if strHas userAgent "Android" then
    ⟨deviceType, reNumPair "Android " '.' userAgent, none⟩
  else if strHas userAgent "iOS" || strHas userAgent "iPhone" || strHas userAgent "iPad" then
    ⟨deviceType, reNumPair "OS " '_' userAgent, none⟩
  else ⟨deviceType, none, none⟩

/-- Embedding of `getUTMTags` (utils): the current UTM block is read verbatim
from the query string; when `isInitialSession` is set, a parallel
`$initial_*` block is added in which source/medium/campaign default to
`"organic"` while term/content are taken verbatim. -/
def getUTMTags (search : String) (isInitialSession : Bool) : List (String × Option String) :=
  [("utm_source", getParam search "utm_source"),
   ("utm_medium", getParam search "utm_medium"),
   ("utm_campaign", getParam search "utm_campaign"),
   ("utm_term", getParam search "utm_term"),
   ("utm_content", getParam search "utm_content")]
  ++ (if isInitialSession then
      [("$initial_utm_source", some ((getParam search "utm_source").getD "organic")),
       ("$initial_utm_medium", some ((getParam search "utm_medium").getD "organic")),
       ("$initial_utm_campaign", some ((getParam search "utm_campaign").getD "organic")),
       ("$initial_utm_term", getParam search "utm_term"),
       ("$initial_utm_content", getParam search "utm_content")]
    else [])

/-- Result of `getReferrerInfo`. -/
structure ReferrerInfo where
  referrer : Option String
  referringDomain : Option String
deriving DecidableEq, Repr

/-- Embedding of `getReferrerInfo` (utils): an empty referrer yields both
fields undefined; a non-empty referrer is parsed with `new URL` (throwing —
here `Except.error` — when it does not parse) and yields the literal value
plus its hostname. -/
def getReferrerInfo (referrer : String) : Except String ReferrerInfo :=
  if referrer = "" then .ok ⟨none, none⟩
  else
    match parseURLHostname referrer with
    | some h => .ok ⟨some referrer, some h⟩
    | none => .error "Invalid URL"

/-- Embedding of `removeUndefinedValues` (utils) specialized to flat property
bags: entries whose value is undefined/null are dropped. -/
def removeUndefinedValues (l : List (String × Option PValue)) : List (String × PValue) :=
  l.filterMap fun p => p.2.map fun v => (p.1, v)

/-- The `ph` payload sent by the client (`user_agent`, `search`, `referrer`,
plus optional locale and viewport fields). -/
structure PH where
  user_agent : String
  search : String
  referrer : String
  language : Option String
  viewport_height : Option Int
  viewport_width : Option Int
deriving DecidableEq, Repr

/-- The object literal built inside `getVisitInfo` before
`removeUndefinedValues` is applied (the referrer info is passed in because
computing it can throw). -/
def visitRaw (ph : PH) (isInitialSession : Bool) (ref : ReferrerInfo) :
    List (String × Option PValue) :=
  [("$raw_user_agent", some (.s ph.user_agent)),
   ("$browser", (getBrowserInfo ph.user_agent).browser.map .s),
   ("$browser_version", (getBrowserInfo ph.user_agent).version.map .s),
   ("$referrer", ref.referrer.map .s),
   ("$referring_domain", ref.referringDomain.map .s),
   ("$device_type", (getDeviceAndOS ph.user_agent).deviceType.map .s),
   ("$os", (getDeviceAndOS ph.user_agent).os.map .s),
   ("$os_version", (getDeviceAndOS ph.user_agent).osVersion.map .s),
   ("$locale", ph.language.map .s),
   ("$viewport_height", ph.viewport_height.map .i),
   ("$viewport_width", ph.viewport_width.map .i)]
  ++ (getUTMTags ph.search isInitialSession).map fun p => (p.1, p.2.map .s)

/-- Embedding of `getVisitInfo` (utils): browser, referrer, device/OS and UTM
information merged into one bag and stripped of undefined values; fails when
the referrer fails to parse. -/
def getVisitInfo (ph : PH) (isInitialSession : Bool) :
    Except String (List (String × PValue)) := do
  let ref ← getReferrerInfo ph.referrer
  return removeUndefinedValues (visitRaw ph isInitialSession ref)

/-- Field access on a stripped visit-property bag
(`visitProperties.utm_source` and friends). -/
def fieldOf (l : List (String × PValue)) (k : String) : Option PValue :=
  (l.find? (fun p => p.1 == k)).map (·.2)

/-- A `res.cookie(name, value, opts)` directive. -/
structure CookieDirective where
  name : String
  value : String
  httpOnly : Bool
  maxAgeMs : Nat
  sameSite : String
deriving DecidableEq, Repr

/-- One year in milliseconds (`YEAR_IN_MS = 3600000 * 24 * 365`). -/
def YEAR_IN_MS : Nat := 3600000 * 24 * 365

/-- Thirty minutes in milliseconds (`THIRTY_MIN_IN_MS = 3600000 / 2`). -/
def THIRTY_MIN_IN_MS : Nat := 3600000 / 2

/-- Shorthand for the directives the handlers emit: all of them use
`httpOnly: true, sameSite: 'lax'`. -/
def mkCookie (n v : String) (age : Nat) : CookieDirective := ⟨n, v, true, age, "lax"⟩

/-- A conditional `if (x) res.cookie(name, x, ...)` directive: emitted only
when the value is truthy. -/
def optCookie (v : Option String) (n : String) (age : Nat) : List CookieDirective :=
  match v with
  | some s => if s != "" then [mkCookie n s age] else []
  | none => []

/-- The outbound PostHog capture payload. -/
structure Event where
  distinctId : String
  name : String
  properties : List (String × Option PValue)
  groups : Option (List (String × String))
deriving DecidableEq, Repr

/-- The groups object shared verbatim by the event, pageview and pageleave
captures: `...(!!organization_slug && { groups: { organization:
organization_slug, ...!!project_ref && { project: project_ref } } })`. -/
def groupsOf (org proj : Option String) : Option (List (String × String)) :=
  match org with
  | some o =>
    if o != "" then
      some (("organization", o) ::
        (match proj with
         | some p => if p != "" then [("project", p)] else []
         | none => []))
    else none
  | none => none

/-- Request-level transport data common to the telemetry endpoints. -/
structure TelemetryReq where
  cookies : List (String × String)
  host : Option String
  xff : Option String
  remoteAddr : Option String
deriving DecidableEq, Repr

/-- Hostname extraction for `new URL(page_url).hostname`, throwing —
`Except.error` — on a malformed URL. -/
def hostnameE (u : String) : Except String String :=
  match parseURLHostname u with
  | some h => .ok h
  | none => .error "Invalid URL"

/-- Body of a `/telemetry/event` request. -/
structure EventBody where
  action : String
  page_url : String
  page_title : String
  pathname : String
  ph : PH
  custom_properties : List (String × Option PValue)
deriving DecidableEq, Repr

/-- The cookie directives both per-event handlers (`/telemetry/event` and
`/telemetry/page`) emit: a short-lived `session_id`, a year-long
`anonymous_id`, and — when the respective value is truthy — a short-lived
`user_id` plus year-long `organization_slug` and `project_ref`. -/
def perEventDirs (ids : Ids) : List CookieDirective :=
  [mkCookie "session_id" ids.session_id THIRTY_MIN_IN_MS,
   mkCookie "anonymous_id" ids.anonymous_id YEAR_IN_MS]
  ++ optCookie ids.user_id "user_id" THIRTY_MIN_IN_MS
  ++ optCookie ids.organization_slug "organization_slug" YEAR_IN_MS
  ++ optCookie ids.project_ref "project_ref" YEAR_IN_MS

/-- The leading seven keys shared by the event and pageview property
literals: `$ip`, page fields, `$host`, person-profile flag and session id. -/
def fixedSeg (ip : Option String) (page_title pathname page_url host : String) (ids : Ids) :
    List (String × Option PValue) :=
  [("$ip", ip.map .s),
   ("page_title", some (.s page_title)),
   ("$pathname", some (.s pathname)),
   ("$current_url", some (.s page_url)),
   ("$host", some (.s host)),
   ("$process_person_profile", some (.b (jsTruthy ids.user_id))),
   ("$session_id", some (.s ids.session_id))]

/-- The property object literal of the `/telemetry/event` capture. -/
def eventProps (ip : Option String) (body : EventBody) (ids : Ids)
    (visit : List (String × PValue)) (host : String) : List (String × Option PValue) :=
  fixedSeg ip body.page_title body.pathname body.page_url host ids
  ++ (visit.map fun p => (p.1, some p.2))
  ++ body.custom_properties

/-- Embedding of the `/telemetry/event` handler: composes the capture payload
(`$ip` from `x-forwarded-for || remoteAddress`, page fields, `$host`,
identity fields, visit properties, then caller-supplied custom properties)
and emits the five cookie directives. -/
def eventHandler (req : TelemetryReq) (body : EventBody) (genAnon genSess : String) :
    Except String (Event × List CookieDirective) := do
  let ip := jsOr req.xff req.remoteAddr
  let ids := getIdsFromCookies req.cookies genAnon genSess
  let visit ← getVisitInfo body.ph false
  let host ← hostnameE body.page_url
  let ev : Event :=
    ⟨ids.user_id.getD ids.anonymous_id, body.action, eventProps ip body ids visit host,
     groupsOf ids.organization_slug ids.project_ref⟩
  return (ev, perEventDirs ids)

/-- Body of a `/telemetry/page` request. -/
structure PageBody where
  page_url : String
  page_title : String
  pathname : String
  ph : PH
deriving DecidableEq, Repr

/-- Embedding of the `/telemetry/page` handler.  The `$ip` guard mirrors the
source expression `(req.headers.host === 'localhost' || '127.0.0.1') ?
undefined : req.headers['x-forwarded-for'] ?? req.socket.remoteAddress`,
including the stray string literal `'127.0.0.1'` standing alone as a truthy
operand.  `isInitialSession` and `hasActiveSession` are computed from raw
cookie truthiness, the visit properties are extracted with the initial-session
flag, and the `$entry_*` block is spread in only when there is no active
session.  Five cookie directives are emitted as in the event handler.
`pageProps` is the property object literal of the capture. -/
def entrySeg (page_url pathname : String) (visit : List (String × PValue)) :
    List (String × Option PValue) :=
  [("$entry_current_url", some (.s page_url)),
   ("$entry_pathname", some (.s pathname)),
   ("$entry_utm_source", fieldOf visit "utm_source"),
   ("$entry_utm_medium", fieldOf visit "utm_medium"),
   ("$entry_utm_campaign", fieldOf visit "utm_campaign"),
   ("$entry_utm_term", fieldOf visit "utm_term"),
   ("$entry_utm_content", fieldOf visit "utm_content"),
   ("$entry_referrer", fieldOf visit "$referrer"),
   ("$entry_referring_domain", fieldOf visit "$referring_domain")]

def pageProps (ip : Option String) (body : PageBody) (ids : Ids)
    (visit : List (String × PValue)) (host : String) (hasActiveSession : Bool) :
    List (String × Option PValue) :=
  fixedSeg ip body.page_title body.pathname body.page_url host ids
  ++ (visit.map fun p => (p.1, some p.2))
  ++ (if !hasActiveSession then entrySeg body.page_url body.pathname visit else [])

/-- The pageview `$ip` expression: `(req.headers.host === 'localhost' ||
'127.0.0.1') ? undefined : req.headers['x-forwarded-for'] ??
req.socket.remoteAddress`, with the stray `'127.0.0.1'` literal kept as a
truthy operand of its own, exactly as in the source. -/
def pageIp (req : TelemetryReq) : Option String :=
  if (req.host == some "localhost") || (("127.0.0.1" : String) != "") then none
  else jsNullish req.xff req.remoteAddr

/-- `isInitialSession`: no session, anonymous, or user cookie is truthy. -/
def isInitialSessionOf (cookies : List (String × String)) : Bool :=
  !(jsTruthy (lookupCookie cookies "session_id"))
  && !(jsTruthy (lookupCookie cookies "anonymous_id"))
  && !(jsTruthy (lookupCookie cookies "user_id"))

/-- `hasActiveSession`: the session cookie is truthy. -/
def hasActiveSessionOf (cookies : List (String × String)) : Bool :=
  jsTruthy (lookupCookie cookies "session_id")

def pageHandler (req : TelemetryReq) (body : PageBody) (genAnon genSess : String) :
    Except String (Event × List CookieDirective) := do
  let ids := getIdsFromCookies req.cookies genAnon genSess
  let visit ← getVisitInfo body.ph (isInitialSessionOf req.cookies)
  let host ← hostnameE body.page_url
  let ev : Event :=
    ⟨ids.user_id.getD ids.anonymous_id, "$pageview",
     pageProps (pageIp req) body ids visit host (hasActiveSessionOf req.cookies),
     groupsOf ids.organization_slug ids.project_ref⟩
  return (ev, perEventDirs ids)

/-- Body of a `/telemetry/pageleave` request. -/
structure PageleaveBody where
  page_url : String
  page_title : String
  pathname : String
deriving DecidableEq, Repr

/-- Embedding of the `/telemetry/pageleave` handler: a fixed nine-key property
bag including the `$exit_*` mirror of the current URL/path, no visit
properties, no `$entry_*` keys, and no cookie directives. -/
def pageleaveProps (ip : Option String) (body : PageleaveBody) (ids : Ids) (host : String) :
    List (String × Option PValue) :=
  [("page_title", some (.s body.page_title)),
   ("$current_url", some (.s body.page_url)),
   ("$host", some (.s host)),
   ("$pathname", some (.s body.pathname)),
   ("$exit_current_url", some (.s body.page_url)),
   ("$exit_pathname", some (.s body.pathname)),
   ("$process_person_profile", some (.b (jsTruthy ids.user_id))),
   ("$session_id", some (.s ids.session_id)),
   ("$ip", ip.map .s)]

def pageleaveHandler (req : TelemetryReq) (body : PageleaveBody) (genAnon genSess : String) :
    Except String Event := do
  let ip := jsOr req.xff req.remoteAddr
  let ids := getIdsFromCookies req.cookies genAnon genSess
  let host ← hostnameE body.page_url
  return ⟨ids.user_id.getD ids.anonymous_id, "$pageleave",
    pageleaveProps ip body ids host,
    groupsOf ids.organization_slug ids.project_ref⟩

/-- Body of a `/telemetry/identify` request. -/
structure IdentifyBody where
  user_id : String
  organization_slug : Option String
  project_ref : Option String
deriving DecidableEq, Repr

/-- Observable outcome of the identify-style handlers: the `groupIdentify`
calls made (group type paired with group key), the cookie directives set, and
the alias target when one was issued. -/
structure IdentifyOut where
  groupIdentifies : List (String × String)
  directives : List CookieDirective
  aliasedTo : Option String
deriving DecidableEq, Repr

/-- A conditional `if (x) posthog.groupIdentify({groupType: t, groupKey: x})`
call: emitted only when the value is truthy. -/
def optGroup (v : Option String) (t : String) : List (String × String) :=
  match v with
  | some s => if s != "" then [(t, s)] else []
  | none => []

/-- Embedding of the `/telemetry/identify` handler: always identifies the
user and sets a year-long `user_id` cookie, aliases the anonymous id when its
cookie is truthy, and — independently of each other — group-identifies and
sets a year-long cookie for the organization and for the project whenever the
respective body field is truthy. -/
def identifyHandler (cookies : List (String × String)) (body : IdentifyBody) : IdentifyOut :=
  ⟨optGroup body.organization_slug "organization" ++ optGroup body.project_ref "project",
   [mkCookie "user_id" body.user_id YEAR_IN_MS]
     ++ optCookie body.organization_slug "organization_slug" YEAR_IN_MS
     ++ optCookie body.project_ref "project_ref" YEAR_IN_MS,
   if jsTruthy (lookupCookie cookies "anonymous_id") then lookupCookie cookies "anonymous_id"
   else none⟩

/-- Body of a `/telemetry/groups/identify` request. -/
structure GroupsIdentifyBody where
  organization_slug : Option String
  project_ref : Option String
deriving DecidableEq, Repr

/-- Embedding of the `/telemetry/groups/identify` handler: returns early with
no effect when the `user_id` cookie is falsy; otherwise group-identifies and
sets a year-long cookie for organization and project independently, as the
identify handler does. -/
def groupsIdentifyHandler (cookies : List (String × String)) (body : GroupsIdentifyBody) :
    IdentifyOut :=
  if !(jsTruthy (lookupCookie cookies "user_id")) then ⟨[], [], none⟩
  else
    ⟨optGroup body.organization_slug "organization" ++ optGroup body.project_ref "project",
     optCookie body.organization_slug "organization_slug" YEAR_IN_MS
       ++ optCookie body.project_ref "project_ref" YEAR_IN_MS,
     none⟩

/-- Left-biased choice on optional bindings. -/
def orO (a b : Option (Option PValue)) : Option (Option PValue) :=
  match a with
  | some v => some v
  | none => b

/-- Last-binding lookup in a property bag: later spreads override earlier
keys, as in a JavaScript object literal. -/
def lookupLast : List (String × Option PValue) → String → Option (Option PValue)
  | [], _ => none
  | p :: l, k => orO (lookupLast l k) (if p.1 == k then some p.2 else none)

/-- The value a key contributes to the serialized event: the last binding, if
any, with an undefined value collapsing to absence (JSON serialization drops
undefined-valued keys). -/
def propOf (props : List (String × Option PValue)) (k : String) : Option PValue :=
  (lookupLast props k).getD none

/-- First-binding association lookup on a raw bag (used to relate stripped
bags back to the object literal they came from). -/
def propOfFirst (l : List (String × Option PValue)) (k : String) : Option PValue :=
  ((l.find? (fun p => p.1 == k)).map (·.2)).getD none

/-- A stripped bag re-spread into an object literal
(`...removeUndefinedValues l`). -/
def stripMap (l : List (String × Option PValue)) : List (String × Option PValue) :=
  (removeUndefinedValues l).map fun p => (p.1, some p.2)

/-- Application of a list of cookie directives to a cookie jar: each
directive overwrites any existing cookie of the same name. -/
def setCookie (m : List (String × String)) (n v : String) : List (String × String) :=
  (n, v) :: m.filter fun p => p.1 != n

/-- Apply all of a response's directives to a cookie jar in order. -/
def applyDirectives (dirs : List CookieDirective) (m : List (String × String)) :
    List (String × String) :=
  dirs.foldl (fun acc d => setCookie acc d.name d.value) m

/-- The names of the `$entry_*` keys the pageview handler can add. -/
def entryKeys : List String :=
  ["$entry_current_url", "$entry_pathname", "$entry_utm_source", "$entry_utm_medium",
   "$entry_utm_campaign", "$entry_utm_term", "$entry_utm_content", "$entry_referrer",
   "$entry_referring_domain"]

/-- The composed event of a successful pageview/event response (a dummy event
stands in for the error case, which the theorems below always exclude). -/
def evOk (r : Except String (Event × List CookieDirective)) : Event :=
  match r with
  | .ok (ev, _) => ev
  | .error _ => ⟨"", "", [], none⟩

/-- The cookie directives of a successful pageview/event response. -/
def dirsOk (r : Except String (Event × List CookieDirective)) : List CookieDirective :=
  match r with
  | .ok (_, dirs) => dirs
  | .error _ => []

/-- The composed event of a successful pageleave response. -/
def plEvOk (r : Except String Event) : Event :=
  match r with
  | .ok ev => ev
  | .error _ => ⟨"", "", [], none⟩

/-- A minimal client payload: plain user agent, empty query string, empty
referrer, no locale or viewport. -/
def phPlain : PH := ⟨"UA", "", "", none, none, none⟩

/-- A concrete pageview body with a well-formed URL. -/
def bodyPage0 : PageBody := ⟨"https://app.example.com/home", "Home", "/home", phPlain⟩

/-- A concrete event body with a well-formed URL and no custom properties. -/
def bodyEvent0 : EventBody := ⟨"clicked", "https://app.example.com/home", "Home", "/home", phPlain, []⟩

/-- A concrete pageleave body. -/
def bodyLeave0 : PageleaveBody := ⟨"https://app.example.com/home", "Home", "/home"⟩

/-- A request carrying a `session_id` cookie whose value is the empty
string. -/
def reqEmptySess : TelemetryReq := ⟨[("session_id", "")], none, none, none⟩

/-- A request from a non-localhost host carrying an `X-Forwarded-For` header
and a transport-level remote address. -/
def reqFwd : TelemetryReq := ⟨[], some "example.com", some "1.2.3.4", some "5.6.7.8"⟩

/-- A request with organization, project and user cookies set. -/
def reqOrgProj : TelemetryReq :=
  ⟨[("organization_id", "org1"), ("project_id", "pr1"), ("user_id", "u1")], none, none, none⟩

/-- A request with no cookies at all (first-ever visit). -/
def reqNone : TelemetryReq := ⟨[], none, none, none⟩

/-- A request with a non-empty session cookie (active session). -/
def reqSess : TelemetryReq := ⟨[("session_id", "s1")], none, none, none⟩

theorem orO_some (v : Option PValue) (b : Option (Option PValue)) : orO (some v) b = some v := rfl

theorem orO_none (b : Option (Option PValue)) : orO none b = b := rfl

theorem orO_assoc (a b c : Option (Option PValue)) : orO (orO a b) c = orO a (orO b c) := by
  cases a <;> rfl

theorem orO_none_right (a : Option (Option PValue)) : orO a none = a := by
  cases a <;> rfl

theorem lookupLast_nil (k : String) : lookupLast [] k = none := rfl

theorem lookupLast_cons (p : String × Option PValue) (l : List (String × Option PValue))
    (k : String) :
    lookupLast (p :: l) k = orO (lookupLast l k) (if p.1 == k then some p.2 else none) := rfl

theorem lookupLast_append (xs ys : List (String × Option PValue)) (k : String) :
    lookupLast (xs ++ ys) k = orO (lookupLast ys k) (lookupLast xs k) := by
  induction xs with
  | nil => exact (orO_none_right _).symm
  | cons p xs ih =>
    simp only [List.cons_append, lookupLast_cons, ih, orO_assoc]

theorem lookupLast_eq_none (l : List (String × Option PValue)) (k : String)
    (h : k ∉ l.map Prod.fst) : lookupLast l k = none := by
  induction l with
  | nil => rfl
  | cons p l ih =>
    simp only [List.map_cons, List.mem_cons, not_or] at h
    have hne : (p.1 == k) = false := beq_eq_false_iff_ne.mpr fun he => h.1 he.symm
    simp [lookupLast_cons, ih h.2, hne, orO]

theorem stripMap_nil : stripMap [] = [] := rfl

theorem stripMap_cons_none (k : String) (l : List (String × Option PValue)) :
    stripMap ((k, none) :: l) = stripMap l := rfl

theorem stripMap_cons_some (k : String) (v : PValue) (l : List (String × Option PValue)) :
    stripMap ((k, some v) :: l) = (k, some v) :: stripMap l := rfl

theorem map_fst_stripMap_sub (l : List (String × Option PValue)) :
    (stripMap l).map Prod.fst ⊆ l.map Prod.fst := by
  induction l with
  | nil => simp [stripMap_nil]
  | cons p l ih =>
    obtain ⟨k, v⟩ := p
    cases v with
    | none =>
      rw [stripMap_cons_none]
      exact fun x hx => List.mem_cons_of_mem _ (ih hx)
    | some w =>
      rw [stripMap_cons_some]
      intro x hx
      rcases List.mem_cons.mp hx with h | h
      · exact List.mem_cons.mpr (Or.inl h)
      · exact List.mem_cons_of_mem _ (ih h)

theorem lookupLast_stripMap_none (l : List (String × Option PValue)) (k : String)
    (h : k ∉ l.map Prod.fst) : lookupLast (stripMap l) k = none :=
  lookupLast_eq_none _ _ fun hm => h (map_fst_stripMap_sub l hm)

theorem propOfFirst_nil (k : String) : propOfFirst [] k = none := rfl

theorem propOfFirst_cons (p : String × Option PValue) (l : List (String × Option PValue))
    (k : String) :
    propOfFirst (p :: l) k = if p.1 == k then p.2 else propOfFirst l k := by
  unfold propOfFirst
  cases hb : (p.1 == k) <;> simp [List.find?, hb]

theorem propOfFirst_eq_none (l : List (String × Option PValue)) (k : String)
    (h : k ∉ l.map Prod.fst) : propOfFirst l k = none := by
  induction l with
  | nil => rfl
  | cons p l ih =>
    simp only [List.map_cons, List.mem_cons, not_or] at h
    have hne : (p.1 == k) = false := beq_eq_false_iff_ne.mpr fun he => h.1 he.symm
    rw [propOfFirst_cons, hne]
    · exact ih h.2
    
theorem propOf_stripMap (l : List (String × Option PValue)) (k : String)
    (h : (l.map Prod.fst).Nodup) : propOf (stripMap l) k = propOfFirst l k := by
  induction l with
  | nil => rfl
  | cons p l ih =>
    obtain ⟨k1, v⟩ := p
    simp only [List.map_cons, List.nodup_cons] at h
    obtain ⟨hnot, hnd⟩ := h
    by_cases hk : k1 = k
    · subst hk
      cases v with
      | none =>
        rw [stripMap_cons_none, propOfFirst_cons]
        simp only [beq_self_eq_true, if_true]
        unfold propOf
        rw [lookupLast_stripMap_none l k1 hnot]
        rfl
      | some w =>
        rw [stripMap_cons_some, propOfFirst_cons]
        simp only [beq_self_eq_true, if_true]
        unfold propOf
        rw [lookupLast_cons, lookupLast_stripMap_none l k1 hnot]
        simp [orO]
    · have hne : (k1 == k) = false := beq_eq_false_iff_ne.mpr hk
      cases v with
      | none =>
        rw [stripMap_cons_none, propOfFirst_cons, hne]
        simpa using ih hnd
      | some w =>
        rw [stripMap_cons_some, propOfFirst_cons, hne]
        unfold propOf
        rw [lookupLast_cons, hne]
        simp only [Bool.false_eq_true, if_false, orO_none_right]
        simpa [propOf] using ih hnd

theorem find?_filter_of_imp {α : Type} (l : List α) (p q : α → Bool)
    (h : ∀ x, p x = true → q x = true) : (l.filter q).find? p = l.find? p := by
  induction l with
  | nil => rfl
  | cons a l ih =>
    by_cases hq : q a = true
    · cases hp : p a with
      | true => simp [List.filter_cons, hq, List.find?, hp]
      | false => simp [List.filter_cons, hq, List.find?, hp, ih]
    · have hp : p a = false := by
        cases hpa : p a with
        | true => exact absurd (h a hpa) hq
        | false => rfl
      simp [List.filter_cons, hq, List.find?, hp, ih]

theorem lookupCookie_setCookie_ne (m : List (String × String)) (n v k : String)
    (h : n ≠ k) : lookupCookie (setCookie m n v) k = lookupCookie m k := by
  unfold lookupCookie setCookie
  have hne : (n == k) = false := beq_eq_false_iff_ne.mpr h
  simp only [List.find?, hne]
  rw [find?_filter_of_imp]
  intro x hx
  have hxk : x.1 = k := beq_iff_eq.mp hx
  rw [hxk]
  exact bne_iff_ne.mpr fun he => h he.symm

theorem lookupCookie_applyDirectives (dirs : List CookieDirective)
    (m : List (String × String)) (k : String) (h : ∀ d ∈ dirs, d.name ≠ k) :
    lookupCookie (applyDirectives dirs m) k = lookupCookie m k := by
  induction dirs generalizing m with
  | nil => rfl
  | cons d dirs ih =>
    have hd : d.name ≠ k := h d (List.mem_cons_self d dirs)
    have hrest : ∀ x ∈ dirs, x.name ≠ k := fun x hx => h x (List.mem_cons_of_mem d hx)
    unfold applyDirectives
    simp only [List.foldl_cons]
    rw [show List.foldl (fun acc dd => setCookie acc dd.name dd.value) (setCookie m d.name d.value) dirs
        = applyDirectives dirs (setCookie m d.name d.value) from rfl]
    rw [ih _ hrest, lookupCookie_setCookie_ne m d.name d.value k hd]

theorem getVisitInfo_inv (ph : PH) (flag : Bool) (visit : List (String × PValue))
    (h : getVisitInfo ph flag = .ok visit) :
    ∃ ref, getReferrerInfo ph.referrer = .ok ref ∧
      visit = removeUndefinedValues (visitRaw ph flag ref) := by
  unfold getVisitInfo at h
  cases href : getReferrerInfo ph.referrer with
  | error e => rw [href] at h; simp [Bind.bind, Except.bind] at h
  | ok ref =>
    rw [href] at h
    simp only [Bind.bind, Except.bind, pure, Except.pure, Except.ok.injEq] at h
    exact ⟨ref, rfl, h.symm⟩

theorem hostnameE_inv (u host : String) (h : hostnameE u = .ok host) :
    parseURLHostname u = some host := by
  unfold hostnameE at h
  cases hp : parseURLHostname u with
  | none => rw [hp] at h; simp at h
  | some x => rw [hp] at h; simp at h; rw [h]

theorem pageHandler_inv (req : TelemetryReq) (body : PageBody) (g1 g2 : String)
    (ev : Event) (dirs : List CookieDirective)
    (hok : pageHandler req body g1 g2 = .ok (ev, dirs)) :
    ∃ ref host,
      getReferrerInfo body.ph.referrer = .ok ref ∧
      parseURLHostname body.page_url = some host ∧
      ev = ⟨(getIdsFromCookies req.cookies g1 g2).user_id.getD
              (getIdsFromCookies req.cookies g1 g2).anonymous_id,
            "$pageview",
            pageProps (pageIp req) body (getIdsFromCookies req.cookies g1 g2)
              (removeUndefinedValues (visitRaw body.ph (isInitialSessionOf req.cookies) ref))
              host (hasActiveSessionOf req.cookies),
            groupsOf (getIdsFromCookies req.cookies g1 g2).organization_slug
              (getIdsFromCookies req.cookies g1 g2).project_ref⟩ ∧
      dirs = perEventDirs (getIdsFromCookies req.cookies g1 g2) := by
  unfold pageHandler at hok
  cases hv : getVisitInfo body.ph (isInitialSessionOf req.cookies) with
  | error e => rw [hv] at hok; simp [Bind.bind, Except.bind] at hok
  | ok visit =>
    rw [hv] at hok
    cases hh : hostnameE body.page_url with
    | error e => rw [hh] at hok; simp [Bind.bind, Except.bind] at hok
    | ok host =>
      rw [hh] at hok
      simp only [Bind.bind, Except.bind, pure, Except.pure, Except.ok.injEq, Prod.mk.injEq] at hok
      obtain ⟨ref, href, hvis⟩ := getVisitInfo_inv _ _ _ hv
      exact ⟨ref, host, href, hostnameE_inv _ _ hh, by rw [← hok.1, hvis], hok.2.symm⟩

theorem eventHandler_inv (req : TelemetryReq) (body : EventBody) (g1 g2 : String)
    (ev : Event) (dirs : List CookieDirective)
    (hok : eventHandler req body g1 g2 = .ok (ev, dirs)) :
    ∃ ref host,
      getReferrerInfo body.ph.referrer = .ok ref ∧
      parseURLHostname body.page_url = some host ∧
      ev = ⟨(getIdsFromCookies req.cookies g1 g2).user_id.getD
              (getIdsFromCookies req.cookies g1 g2).anonymous_id,
            body.action,
            eventProps (jsOr req.xff req.remoteAddr) body (getIdsFromCookies req.cookies g1 g2)
              (removeUndefinedValues (visitRaw body.ph false ref)) host,
            groupsOf (getIdsFromCookies req.cookies g1 g2).organization_slug
              (getIdsFromCookies req.cookies g1 g2).project_ref⟩ ∧
      dirs = perEventDirs (getIdsFromCookies req.cookies g1 g2) := by
  unfold eventHandler at hok
  cases hv : getVisitInfo body.ph false with
  | error e => rw [hv] at hok; simp [Bind.bind, Except.bind] at hok
  | ok visit =>
    rw [hv] at hok
    cases hh : hostnameE body.page_url with
    | error e => rw [hh] at hok; simp [Bind.bind, Except.bind] at hok
    | ok host =>
      rw [hh] at hok
      simp only [Bind.bind, Except.bind, pure, Except.pure, Except.ok.injEq, Prod.mk.injEq] at hok
      obtain ⟨ref, href, hvis⟩ := getVisitInfo_inv _ _ _ hv
      exact ⟨ref, host, href, hostnameE_inv _ _ hh, by rw [← hok.1, hvis], hok.2.symm⟩

theorem pageleaveHandler_inv (req : TelemetryReq) (body : PageleaveBody) (g1 g2 : String)
    (ev : Event) (hok : pageleaveHandler req body g1 g2 = .ok ev) :
    ∃ host,
      parseURLHostname body.page_url = some host ∧
      ev = ⟨(getIdsFromCookies req.cookies g1 g2).user_id.getD
              (getIdsFromCookies req.cookies g1 g2).anonymous_id,
            "$pageleave",
            pageleaveProps (jsOr req.xff req.remoteAddr) body
              (getIdsFromCookies req.cookies g1 g2) host,
            groupsOf (getIdsFromCookies req.cookies g1 g2).organization_slug
              (getIdsFromCookies req.cookies g1 g2).project_ref⟩ := by
  unfold pageleaveHandler at hok
  cases hh : hostnameE body.page_url with
  | error e => rw [hh] at hok; simp [Bind.bind, Except.bind] at hok
  | ok host =>
    rw [hh] at hok
    simp only [Bind.bind, Except.bind, pure, Except.pure, Except.ok.injEq] at hok
    exact ⟨host, hostnameE_inv _ _ hh, hok.symm⟩

theorem propOf_eq_none_of_not_mem (props : List (String × Option PValue)) (k : String)
    (h : k ∉ props.map Prod.fst) : propOf props k = none := by
  unfold propOf
  rw [lookupLast_eq_none _ _ h]
  rfl

theorem visitRaw_keys_false (ph : PH) (ref : ReferrerInfo) :
    (visitRaw ph false ref).map Prod.fst =
      ["$raw_user_agent", "$browser", "$browser_version", "$referrer", "$referring_domain",
       "$device_type", "$os", "$os_version", "$locale", "$viewport_height", "$viewport_width",
       "utm_source", "utm_medium", "utm_campaign", "utm_term", "utm_content"] := rfl

theorem visitRaw_keys_true (ph : PH) (ref : ReferrerInfo) :
    (visitRaw ph true ref).map Prod.fst =
      ["$raw_user_agent", "$browser", "$browser_version", "$referrer", "$referring_domain",
       "$device_type", "$os", "$os_version", "$locale", "$viewport_height", "$viewport_width",
       "utm_source", "utm_medium", "utm_campaign", "utm_term", "utm_content",
       "$initial_utm_source", "$initial_utm_medium", "$initial_utm_campaign",
       "$initial_utm_term", "$initial_utm_content"] := rfl

theorem visitRaw_keys_nodup (ph : PH) (flag : Bool) (ref : ReferrerInfo) :
    ((visitRaw ph flag ref).map Prod.fst).Nodup := by
  cases flag
  · rw [visitRaw_keys_false]; decide
  · rw [visitRaw_keys_true]; decide

/-- Claim C7: the claim states that for every user-agent string OS detection
matches Windows, Mac, Linux, Android, iOS in order, emits the OS name as the
os attribute and the pattern-extracted version as the os-version attribute.
The code instead assigns the Android/iOS version match to the `os` variable
itself, so on an Android user agent the os attribute is the version string
`"14.0"` (not `"Android"`) and the os-version attribute stays unset; same for
iOS.  The Windows branch behaves as claimed. -/
theorem c7_os_version_clobbered :
    getDeviceAndOS "Mozilla/5.0 (Android 14.0; Mobile)"
      = ⟨some "Mobile", some "14.0", none⟩
    ∧ getDeviceAndOS "Mozilla/5.0 (iPhone; CPU iPhone OS 17_5)"
      = ⟨some "Desktop", some "17_5", none⟩
    ∧ getDeviceAndOS "Mozilla/5.0 (Windows NT 10.0; Win64; x64)"
      = ⟨some "Desktop", some "Windows", some "10.0"⟩ :=
  ⟨rfl, rfl, rfl⟩

/-- Claim C8, counterexample: the resolver uses nullish coalescing, not a
non-emptiness test, so a present-but-empty `anonymous_id` (or `session_id`)
cookie is passed through as the empty string — the result is neither the
cookie-when-non-empty nor a freshly generated identifier, and the output is
empty, contradicting the claim that the fields are never empty. -/
theorem c8_counterexample :
    (getIdsFromCookies [("anonymous_id", "")] "gen-anon" "gen-sess").anonymous_id = ""
    ∧ (getIdsFromCookies [("session_id", "")] "gen-anon" "gen-sess").session_id = "" :=
  ⟨rfl, rfl⟩

/-- Claim C8, amended: the resolver returns the `anonymous_id` cookie value
whenever the cookie is present — including when it is the empty string — and
the generated identifier exactly when the cookie is absent; the same rule
holds independently for `session_id`.  Both fields are therefore always
present in the result, and are non-empty whenever the generator value is
non-empty and the cookie is not present-and-empty. -/
theorem c8_resolver (cookies : List (String × String)) (g1 g2 : String) :
    (∀ v, lookupCookie cookies "anonymous_id" = some v →
      (getIdsFromCookies cookies g1 g2).anonymous_id = v)
    ∧ (lookupCookie cookies "anonymous_id" = none →
      (getIdsFromCookies cookies g1 g2).anonymous_id = g1)
    ∧ (∀ v, lookupCookie cookies "session_id" = some v →
      (getIdsFromCookies cookies g1 g2).session_id = v)
    ∧ (lookupCookie cookies "session_id" = none →
      (getIdsFromCookies cookies g1 g2).session_id = g2)
    ∧ (g1 ≠ "" → lookupCookie cookies "anonymous_id" = none →
      (getIdsFromCookies cookies g1 g2).anonymous_id ≠ "")
    ∧ (g2 ≠ "" → lookupCookie cookies "session_id" = none →
      (getIdsFromCookies cookies g1 g2).session_id ≠ "") := by
  unfold getIdsFromCookies
  refine ⟨?_, ?_, ?_, ?_, ?_, ?_⟩
  · intro v hv; simp [hv]
  · intro hv; simp [hv]
  · intro v hv; simp [hv]
  · intro hv; simp [hv]
  · intro hg hv; simp [hv]; exact hg
  · intro hg hv; simp [hv]; exact hg

/-- Claim C8 witness: a cookie map with no identity keys resolves both
generated identifiers, and a non-empty session cookie is passed through. -/
theorem c8_resolver_witness :
    (getIdsFromCookies [] "A7" "S7").anonymous_id = "A7"
    ∧ (getIdsFromCookies [("session_id", "s1")] "A7" "S7").session_id = "s1" :=
  ⟨(c8_resolver [] "A7" "S7").2.1 rfl,
   (c8_resolver [("session_id", "s1")] "A7" "S7").2.2.1 "s1" rfl⟩

/-- Claim C10: visit-context extraction fails (with a propagated error)
exactly when the referrer is non-empty and does not parse as a URL; a
non-empty parseable referrer keeps the literal value and derives the
referring domain as its host; an empty referrer yields both fields absent
without error; and `getVisitInfo` succeeds exactly when the referrer step
does, so the error propagates to the caller. -/
theorem c10_referrer (r : String) (ph : PH) (flag : Bool) :
    ((∃ e, getReferrerInfo r = .error e) ↔ r ≠ "" ∧ parseURLHostname r = none)
    ∧ (r = "" → getReferrerInfo r = .ok ⟨none, none⟩)
    ∧ (∀ h, r ≠ "" → parseURLHostname r = some h →
      getReferrerInfo r = .ok ⟨some r, some h⟩)
    ∧ ((∃ v, getVisitInfo ph flag = .ok v) ↔ (∃ i, getReferrerInfo ph.referrer = .ok i)) := by
  refine ⟨?_, ?_, ?_, ?_⟩
  · constructor
    · rintro ⟨e, he⟩
      unfold getReferrerInfo at he
      by_cases hr : r = ""
      · simp [hr] at he
      · refine ⟨hr, ?_⟩
        rw [if_neg hr] at he
        cases hp : parseURLHostname r with
        | none => rfl
        | some x => rw [hp] at he; simp at he
    · rintro ⟨hr, hp⟩
      refine ⟨"Invalid URL", ?_⟩
      unfold getReferrerInfo
      rw [if_neg hr, hp]
  · intro hr; unfold getReferrerInfo; rw [if_pos hr]
  · intro h hr hp; unfold getReferrerInfo; rw [if_neg hr, hp]
  · unfold getVisitInfo
    cases href : getReferrerInfo ph.referrer with
    | error e =>
      simp [Bind.bind, Except.bind]
    | ok ref =>
      simp [Bind.bind, Except.bind, pure, Except.pure]

/-- Claim C10 witness: a concrete parseable referrer round-trips and an
empty referrer yields both fields absent. -/
theorem c10_referrer_witness :
    getReferrerInfo "https://google.com/search"
      = .ok ⟨some "https://google.com/search", some "google.com"⟩
    ∧ getReferrerInfo "" = .ok ⟨none, none⟩ :=
  ⟨(c10_referrer "https://google.com/search" phPlain false).2.2.1 "google.com" (by decide) rfl,
   (c10_referrer "" phPlain false).2.1 rfl⟩

/-- Claim C3: the claim states the pageview `$ip` equals the
`X-Forwarded-For` value (else the remote address) for non-localhost hosts and
is omitted only for localhost.  In the code the guard
`req.headers.host === 'localhost' || '127.0.0.1'` is always truthy because
the string literal `'127.0.0.1'` stands alone as an operand, so `$ip` is
omitted from every composed pageview: here even with host `example.com` and
`X-Forwarded-For: 1.2.3.4` the property is absent. -/
theorem c3_pageview_ip_omitted :
    (∀ req : TelemetryReq, pageIp req = none)
    ∧ reqFwd.host = some "example.com"
    ∧ reqFwd.xff = some "1.2.3.4"
    ∧ propOf (evOk (pageHandler reqFwd bodyPage0 "ga" "gs")).properties "$ip" = none := by
  refine ⟨?_, rfl, rfl, rfl⟩
  intro req
  unfold pageIp
  simp

theorem mem_optCookie (d : CookieDirective) (v : Option String) (n : String) (a : Nat)
    (h : d ∈ optCookie v n a) : d.name = n ∧ d.maxAgeMs = a := by
  cases v with
  | none => simp [optCookie] at h
  | some s =>
    simp only [optCookie] at h
    by_cases hs : (s != "") = true
    · rw [if_pos hs] at h
      simp at h
      rw [h]
      exact ⟨rfl, rfl⟩
    · rw [if_neg hs] at h
      simp at h

theorem perEventDirs_names (ids : Ids) :
    ∀ d ∈ perEventDirs ids,
      d.name ∈ (["session_id", "anonymous_id", "user_id", "organization_slug",
                 "project_ref"] : List String) := by
  intro d hd
  unfold perEventDirs at hd
  simp only [List.mem_append, List.mem_cons, List.not_mem_nil, or_false, or_assoc] at hd
  rcases hd with h | h | h | h | h
  · rw [h]; simp [mkCookie]
  · rw [h]; simp [mkCookie]
  · rw [(mem_optCookie _ _ _ _ h).1]; simp
  · rw [(mem_optCookie _ _ _ _ h).1]; simp
  · rw [(mem_optCookie _ _ _ _ h).1]; simp

theorem identifyHandler_names (cookies : List (String × String)) (body : IdentifyBody) :
    ∀ d ∈ (identifyHandler cookies body).directives,
      d.name ∈ (["session_id", "anonymous_id", "user_id", "organization_slug",
                 "project_ref"] : List String) := by
  intro d hd
  unfold identifyHandler at hd
  simp only [List.mem_append, List.mem_cons, List.not_mem_nil, or_false, or_assoc] at hd
  rcases hd with h | h | h
  · rw [h]; simp [mkCookie]
  · rw [(mem_optCookie _ _ _ _ h).1]; simp
  · rw [(mem_optCookie _ _ _ _ h).1]; simp

theorem groupsIdentifyHandler_names (cookies : List (String × String))
    (body : GroupsIdentifyBody) :
    ∀ d ∈ (groupsIdentifyHandler cookies body).directives,
      d.name ∈ (["session_id", "anonymous_id", "user_id", "organization_slug",
                 "project_ref"] : List String) := by
  intro d hd
  unfold groupsIdentifyHandler at hd
  by_cases hu : (!(jsTruthy (lookupCookie cookies "user_id"))) = true
  · rw [if_pos hu] at hd
    simp at hd
  · rw [if_neg hu] at hd
    simp only [List.mem_append] at hd
    rcases hd with h | h
    · rw [(mem_optCookie _ _ _ _ h).1]; simp
    · rw [(mem_optCookie _ _ _ _ h).1]; simp

theorem emitted_names_never_read (s : String)
    (hs : s ∈ (["session_id", "anonymous_id", "user_id", "organization_slug",
                "project_ref"] : List String)) :
    s ≠ "organization_id" ∧ s ≠ "project_id" := by
  fin_cases hs <;> exact ⟨by decide, by decide⟩

theorem resolved_groups_of_dirs (dirs : List CookieDirective)
    (hnames : ∀ d ∈ dirs,
      d.name ∈ (["session_id", "anonymous_id", "user_id", "organization_slug",
                 "project_ref"] : List String)) (g1 g2 : String) :
    (getIdsFromCookies (applyDirectives dirs []) g1 g2).organization_slug = none
    ∧ (getIdsFromCookies (applyDirectives dirs []) g1 g2).project_ref = none := by
  unfold getIdsFromCookies
  constructor
  · show lookupCookie (applyDirectives dirs []) "organization_id" = none
    rw [lookupCookie_applyDirectives dirs [] "organization_id"
      (fun d hd => (emitted_names_never_read _ (hnames d hd)).1)]
    rfl
  · show lookupCookie (applyDirectives dirs []) "project_id" = none
    rw [lookupCookie_applyDirectives dirs [] "project_id"
      (fun d hd => (emitted_names_never_read _ (hnames d hd)).2)]
    rfl

/-- Claim C5: the resolver reads the group identity from the
`organization_id` and `project_id` cookies, but every directive emitted by
the identify, groups-identify, event and pageview operations writes only the
names `session_id`, `anonymous_id`, `user_id`, `organization_slug` and
`project_ref`; hence applying any of those responses' directives to an empty
cookie jar and resolving yields an undefined organization and project — the
written group identity is never read back. -/
theorem c5_group_roundtrip (cookies : List (String × String)) (g1 g2 : String)
    (ibody : IdentifyBody) (gbody : GroupsIdentifyBody)
    (req : TelemetryReq) (ebody : EventBody) (pbody : PageBody)
    (ev ev2 : Event) (dirs dirs2 : List CookieDirective)
    (hokE : eventHandler req ebody g1 g2 = .ok (ev, dirs))
    (hokP : pageHandler req pbody g1 g2 = .ok (ev2, dirs2)) :
    ((getIdsFromCookies (applyDirectives (identifyHandler cookies ibody).directives [])
        g1 g2).organization_slug = none
      ∧ (getIdsFromCookies (applyDirectives (identifyHandler cookies ibody).directives [])
        g1 g2).project_ref = none)
    ∧ ((getIdsFromCookies (applyDirectives (groupsIdentifyHandler cookies gbody).directives [])
        g1 g2).organization_slug = none
      ∧ (getIdsFromCookies (applyDirectives (groupsIdentifyHandler cookies gbody).directives [])
        g1 g2).project_ref = none)
    ∧ ((getIdsFromCookies (applyDirectives dirs []) g1 g2).organization_slug = none
      ∧ (getIdsFromCookies (applyDirectives dirs []) g1 g2).project_ref = none)
    ∧ ((getIdsFromCookies (applyDirectives dirs2 []) g1 g2).organization_slug = none
      ∧ (getIdsFromCookies (applyDirectives dirs2 []) g1 g2).project_ref = none) := by
  obtain ⟨_, _, _, _, _, hdirs⟩ := eventHandler_inv _ _ _ _ _ _ hokE
  obtain ⟨_, _, _, _, _, hdirs2⟩ := pageHandler_inv _ _ _ _ _ _ hokP
  refine ⟨resolved_groups_of_dirs _ (identifyHandler_names cookies ibody) g1 g2,
    resolved_groups_of_dirs _ (groupsIdentifyHandler_names cookies gbody) g1 g2, ?_, ?_⟩
  · rw [hdirs]
    exact resolved_groups_of_dirs _ (perEventDirs_names _) g1 g2
  · rw [hdirs2]
    exact resolved_groups_of_dirs _ (perEventDirs_names _) g1 g2

/-- Claim C5 witness: concrete identify and event/pageview responses round-trip
to an empty resolved organization and project. -/
theorem c5_group_roundtrip_witness :
    (getIdsFromCookies
      (applyDirectives (identifyHandler [] ⟨"u1", some "o1", some "p1"⟩).directives [])
      "ga" "gs").organization_slug = none
    ∧ (getIdsFromCookies
      (applyDirectives (dirsOk (eventHandler reqOrgProj bodyEvent0 "ga" "gs")) [])
      "ga" "gs").project_ref = none := by
  have h := c5_group_roundtrip [] "ga" "gs" ⟨"u1", some "o1", some "p1"⟩ ⟨none, none⟩
    reqOrgProj bodyEvent0 bodyPage0
    (evOk (eventHandler reqOrgProj bodyEvent0 "ga" "gs"))
    (evOk (pageHandler reqOrgProj bodyPage0 "ga" "gs"))
    (dirsOk (eventHandler reqOrgProj bodyEvent0 "ga" "gs"))
    (dirsOk (pageHandler reqOrgProj bodyPage0 "ga" "gs"))
    rfl rfl
  exact ⟨h.1.1, h.2.2.1.2⟩

/-- Claim C4, counterexample: on an event-tracking response with organization
and project cookies present, the emitted `organization_slug` and
`project_ref` directives carry the one-year max-age (31536000000 ms), not the
short-lived ~30-minute one the claim asserts for them. -/
theorem c4_counterexample :
    dirsOk (eventHandler reqOrgProj bodyEvent0 "ga" "gs") =
      [mkCookie "session_id" "gs" THIRTY_MIN_IN_MS,
       mkCookie "anonymous_id" "ga" YEAR_IN_MS,
       mkCookie "user_id" "u1" THIRTY_MIN_IN_MS,
       mkCookie "organization_slug" "org1" YEAR_IN_MS,
       mkCookie "project_ref" "pr1" YEAR_IN_MS]
    ∧ YEAR_IN_MS = 31536000000 ∧ THIRTY_MIN_IN_MS = 1800000 :=
  ⟨rfl, rfl, rfl⟩

/-- Claim C4, amended: on every per-event response (event tracking and
pageview) the directives are the same `perEventDirs` list, in which
`session_id` and (when present) `user_id` get the short-lived ~30-minute
max-age while `anonymous_id` and (when present) `organization_slug` and
`project_ref` get the long-lived ~1-year max-age. -/
theorem c4_ttl_classes (req : TelemetryReq) (ebody : EventBody) (pbody : PageBody)
    (g1 g2 : String) (ev ev2 : Event) (dirs dirs2 : List CookieDirective)
    (hokE : eventHandler req ebody g1 g2 = .ok (ev, dirs))
    (hokP : pageHandler req pbody g1 g2 = .ok (ev2, dirs2)) :
    dirs = perEventDirs (getIdsFromCookies req.cookies g1 g2)
    ∧ dirs2 = perEventDirs (getIdsFromCookies req.cookies g1 g2)
    ∧ (∀ ids : Ids, ∀ d ∈ perEventDirs ids,
        ((d.name = "session_id" ∨ d.name = "user_id") → d.maxAgeMs = THIRTY_MIN_IN_MS)
        ∧ ((d.name = "anonymous_id" ∨ d.name = "organization_slug" ∨ d.name = "project_ref")
            → d.maxAgeMs = YEAR_IN_MS))
    ∧ (∀ ids : Ids, mkCookie "session_id" ids.session_id THIRTY_MIN_IN_MS ∈ perEventDirs ids)
    ∧ (∀ ids : Ids, mkCookie "anonymous_id" ids.anonymous_id YEAR_IN_MS ∈ perEventDirs ids)
    ∧ (∀ ids : Ids, ∀ u, ids.user_id = some u → u ≠ "" →
        mkCookie "user_id" u THIRTY_MIN_IN_MS ∈ perEventDirs ids)
    ∧ (∀ ids : Ids, ∀ o, ids.organization_slug = some o → o ≠ "" →
        mkCookie "organization_slug" o YEAR_IN_MS ∈ perEventDirs ids)
    ∧ (∀ ids : Ids, ∀ p, ids.project_ref = some p → p ≠ "" →
        mkCookie "project_ref" p YEAR_IN_MS ∈ perEventDirs ids) := by
  obtain ⟨_, _, _, _, _, hdirs⟩ := eventHandler_inv _ _ _ _ _ _ hokE
  obtain ⟨_, _, _, _, _, hdirs2⟩ := pageHandler_inv _ _ _ _ _ _ hokP
  refine ⟨hdirs, hdirs2, ?_, ?_, ?_, ?_, ?_, ?_⟩
  · intro ids d hd
    unfold perEventDirs at hd
    simp only [List.mem_append, List.mem_cons, List.not_mem_nil, or_false, or_assoc] at hd
    rcases hd with h | h | h | h | h
    · rw [h]
      refine ⟨fun _ => rfl, fun hc => ?_⟩
      simp [mkCookie] at hc
    · rw [h]
      refine ⟨fun hc => ?_, fun _ => rfl⟩
      simp [mkCookie] at hc
    · obtain ⟨hname, hmax⟩ := mem_optCookie _ _ _ _ h
      refine ⟨fun _ => hmax, fun hc => ?_⟩
      rw [hname] at hc
      simp at hc
    · obtain ⟨hname, hmax⟩ := mem_optCookie _ _ _ _ h
      refine ⟨fun hc => ?_, fun _ => hmax⟩
      rw [hname] at hc
      simp at hc
    · obtain ⟨hname, hmax⟩ := mem_optCookie _ _ _ _ h
      refine ⟨fun hc => ?_, fun _ => hmax⟩
      rw [hname] at hc
      simp at hc
  · intro ids
    unfold perEventDirs
    simp
  · intro ids
    unfold perEventDirs
    simp
  · intro ids u hu hune
    unfold perEventDirs
    rw [hu]
    have : optCookie (some u) "user_id" THIRTY_MIN_IN_MS = [mkCookie "user_id" u THIRTY_MIN_IN_MS] := by
      simp [optCookie, bne_iff_ne, hune]
    rw [this]
    simp
  · intro ids o ho hone
    unfold perEventDirs
    rw [ho]
    have : optCookie (some o) "organization_slug" YEAR_IN_MS
        = [mkCookie "organization_slug" o YEAR_IN_MS] := by
      simp [optCookie, bne_iff_ne, hone]
    rw [this]
    simp
  · intro ids p hp hpne
    unfold perEventDirs
    rw [hp]
    have : optCookie (some p) "project_ref" YEAR_IN_MS
        = [mkCookie "project_ref" p YEAR_IN_MS] := by
      simp [optCookie, bne_iff_ne, hpne]
    rw [this]
    simp

/-- Claim C4 witness: on a concrete event-tracking response the directives
are the shared per-event list and it contains the year-long organization
directive and the short-lived session directive. -/
theorem c4_ttl_classes_witness :
    dirsOk (eventHandler reqOrgProj bodyEvent0 "ga" "gs")
      = perEventDirs (getIdsFromCookies reqOrgProj.cookies "ga" "gs")
    ∧ mkCookie "organization_slug" "org1" YEAR_IN_MS
        ∈ perEventDirs (getIdsFromCookies reqOrgProj.cookies "ga" "gs")
    ∧ mkCookie "session_id" "gs" THIRTY_MIN_IN_MS
        ∈ perEventDirs (getIdsFromCookies reqOrgProj.cookies "ga" "gs") := by
  have h := c4_ttl_classes reqOrgProj bodyEvent0 bodyPage0 "ga" "gs"
    (evOk (eventHandler reqOrgProj bodyEvent0 "ga" "gs"))
    (evOk (pageHandler reqOrgProj bodyPage0 "ga" "gs"))
    (dirsOk (eventHandler reqOrgProj bodyEvent0 "ga" "gs"))
    (dirsOk (pageHandler reqOrgProj bodyPage0 "ga" "gs"))
    rfl rfl
  exact ⟨h.1, h.2.2.2.2.2.2.1 _ "org1" rfl (by decide), h.2.2.2.1 _⟩

/-- Claim C9, counterexample: the gating is not applied identically across
identify and the capture compositions — an identify call with a project and
no organization still emits a project group identification; and on the event
composition an `organization_id` cookie that is present but empty yields no
groups at all even though the claim keys presence alone. -/
theorem c9_counterexample :
    (identifyHandler [] ⟨"u1", none, some "p1"⟩).groupIdentifies = [("project", "p1")]
    ∧ lookupCookie [("organization_id", "")] "organization_id" = some ""
    ∧ (evOk (eventHandler ⟨[("organization_id", "")], none, none, none⟩ bodyEvent0
        "ga" "gs")).groups = none :=
  ⟨rfl, rfl, rfl⟩

/-- Claim C9, amended: for event, pageview and pageleave composition the
groups object is the shared `groupsOf`, which is present exactly when the
organization value is present and non-empty and carries a project sub-key
exactly when the project value is also present and non-empty; the identify
operation instead gates organization and project group identification
independently, so a project group can be identified without an organization;
the claim's example holds — identify with organization `org_1` and no
project yields exactly the organization group. -/
theorem c9_groups_gating (req : TelemetryReq) (ebody : EventBody) (pbody : PageBody)
    (lbody : PageleaveBody) (g1 g2 : String) (ev1 ev2 ev3 : Event)
    (dirs1 dirs2 : List CookieDirective)
    (hokE : eventHandler req ebody g1 g2 = .ok (ev1, dirs1))
    (hokP : pageHandler req pbody g1 g2 = .ok (ev2, dirs2))
    (hokL : pageleaveHandler req lbody g1 g2 = .ok ev3) :
    (∀ org proj : Option String, (groupsOf org proj = none ↔ jsTruthy org = false))
    ∧ (∀ o : String, ∀ proj : Option String, o ≠ "" → jsTruthy proj = false →
        groupsOf (some o) proj = some [("organization", o)])
    ∧ (∀ o p : String, o ≠ "" → p ≠ "" →
        groupsOf (some o) (some p) = some [("organization", o), ("project", p)])
    ∧ ev1.groups = groupsOf (lookupCookie req.cookies "organization_id")
        (lookupCookie req.cookies "project_id")
    ∧ ev2.groups = groupsOf (lookupCookie req.cookies "organization_id")
        (lookupCookie req.cookies "project_id")
    ∧ ev3.groups = groupsOf (lookupCookie req.cookies "organization_id")
        (lookupCookie req.cookies "project_id")
    ∧ (∀ cookies : List (String × String), ∀ u : String,
        (identifyHandler cookies ⟨u, some "org_1", none⟩).groupIdentifies
          = [("organization", "org_1")])
    ∧ (∀ cookies : List (String × String), ∀ u p : String, p ≠ "" →
        (identifyHandler cookies ⟨u, none, some p⟩).groupIdentifies = [("project", p)]) := by
  obtain ⟨_, _, _, _, hev1, _⟩ := eventHandler_inv _ _ _ _ _ _ hokE
  obtain ⟨_, _, _, _, hev2, _⟩ := pageHandler_inv _ _ _ _ _ _ hokP
  obtain ⟨_, _, hev3⟩ := pageleaveHandler_inv _ _ _ _ _ hokL
  refine ⟨?_, ?_, ?_, by rw [hev1]; rfl, by rw [hev2]; rfl, by rw [hev3]; rfl, ?_, ?_⟩
  · intro org proj
    cases org with
    | none => simp [groupsOf, jsTruthy]
    | some o =>
      by_cases ho : o = ""
      · subst ho; simp [groupsOf, jsTruthy]
      · simp [groupsOf, jsTruthy, bne_iff_ne, ho]
  · intro o proj ho hproj
    have ho' : (o != "") = true := bne_iff_ne.mpr ho
    cases proj with
    | none => simp [groupsOf, ho']
    | some p =>
      have hp : p = "" := by
        by_cases hpp : p = ""
        · exact hpp
        · exfalso
          have ht : jsTruthy (some p) = true := by simp [jsTruthy, bne_iff_ne, hpp]
          rw [ht] at hproj
          exact absurd hproj (by decide)
      subst hp
      simp [groupsOf, ho']
  · intro o p ho hp
    simp [groupsOf, bne_iff_ne, ho, hp]
  · intro cookies u
    simp [identifyHandler, optGroup]
  · intro cookies u p hp
    simp [identifyHandler, optGroup, bne_iff_ne, hp]

/-- Claim C9 witness: on a concrete event with organization and project
cookies the composed groups carry both keys, and a concrete identify call
with only an organization yields exactly the organization group. -/
theorem c9_groups_gating_witness :
    (evOk (eventHandler reqOrgProj bodyEvent0 "ga" "gs")).groups
      = some [("organization", "org1"), ("project", "pr1")]
    ∧ (identifyHandler [] ⟨"u1", some "org_1", none⟩).groupIdentifies
      = [("organization", "org_1")] := by
  have h := c9_groups_gating reqOrgProj bodyEvent0 bodyPage0 bodyLeave0 "ga" "gs"
    (evOk (eventHandler reqOrgProj bodyEvent0 "ga" "gs"))
    (evOk (pageHandler reqOrgProj bodyPage0 "ga" "gs"))
    (plEvOk (pageleaveHandler reqOrgProj bodyLeave0 "ga" "gs"))
    (dirsOk (eventHandler reqOrgProj bodyEvent0 "ga" "gs"))
    (dirsOk (pageHandler reqOrgProj bodyPage0 "ga" "gs"))
    rfl rfl rfl
  constructor
  · rw [h.2.2.2.1]
    exact h.2.2.1 "org1" "pr1" (by decide) (by decide)
  · exact h.2.2.2.2.2.2.1 [] "u1"

theorem fixedSeg_keys (ip : Option String) (t pn u h : String) (ids : Ids) :
    (fixedSeg ip t pn u h ids).map Prod.fst =
      ["$ip", "page_title", "$pathname", "$current_url", "$host",
       "$process_person_profile", "$session_id"] := rfl

theorem entrySeg_keys (u pn : String) (visit : List (String × PValue)) :
    (entrySeg u pn visit).map Prod.fst = entryKeys := rfl

theorem propOf_three_seg (A mid E : List (String × Option PValue)) (k : String)
    (hA : k ∉ A.map Prod.fst) (hE : k ∉ E.map Prod.fst) :
    propOf (A ++ mid ++ E) k = propOf mid k := by
  unfold propOf
  rw [lookupLast_append, lookupLast_append, lookupLast_eq_none E k hE,
    lookupLast_eq_none A k hA, orO_none, orO_none_right]

theorem propOf_of_last_some (A mid E : List (String × Option PValue)) (k : String)
    (v : Option PValue) (hE : lookupLast E k = some v) :
    propOf (A ++ mid ++ E) k = v := by
  unfold propOf
  rw [lookupLast_append, hE]
  rfl

/-- Claim C2: for every NewVisitor pageview request (session, anonymous, and
user cookies all absent) whose query string carries no utm parameters, the
entry-attribution block — emitted by `getUTMTags` as the `$initial_*` keys —
has source, medium and campaign equal to `"organic"` while the term and
content keys are absent from the composed properties (asymmetric default). -/
theorem c2_new_visitor_entry_organic (req : TelemetryReq) (body : PageBody) (g1 g2 : String)
    (ev : Event) (dirs : List CookieDirective)
    (hs : lookupCookie req.cookies "session_id" = none)
    (ha : lookupCookie req.cookies "anonymous_id" = none)
    (hu : lookupCookie req.cookies "user_id" = none)
    (hsrc : getParam body.ph.search "utm_source" = none)
    (hmed : getParam body.ph.search "utm_medium" = none)
    (hcamp : getParam body.ph.search "utm_campaign" = none)
    (hterm : getParam body.ph.search "utm_term" = none)
    (hcont : getParam body.ph.search "utm_content" = none)
    (hok : pageHandler req body g1 g2 = .ok (ev, dirs)) :
    propOf ev.properties "$initial_utm_source" = some (.s "organic")
    ∧ propOf ev.properties "$initial_utm_medium" = some (.s "organic")
    ∧ propOf ev.properties "$initial_utm_campaign" = some (.s "organic")
    ∧ propOf ev.properties "$initial_utm_term" = none
    ∧ propOf ev.properties "$initial_utm_content" = none := by
  obtain ⟨ref, host, href, hhost, hev, _⟩ := pageHandler_inv _ _ _ _ _ _ hok
  have hflag : isInitialSessionOf req.cookies = true := by
    unfold isInitialSessionOf
    rw [hs, ha, hu]
    rfl
  have hact : hasActiveSessionOf req.cookies = false := by
    unfold hasActiveSessionOf
    rw [hs]
    rfl
  have hprops : ev.properties = pageProps (pageIp req) body (getIdsFromCookies req.cookies g1 g2)
      (removeUndefinedValues (visitRaw body.ph (isInitialSessionOf req.cookies) ref)) host
      (hasActiveSessionOf req.cookies) := by rw [hev]
  rw [hflag, hact] at hprops
  unfold pageProps at hprops
  simp only [Bool.not_false, if_true] at hprops
  have hmid : (removeUndefinedValues (visitRaw body.ph true ref)).map
      (fun p => (p.1, some p.2)) = stripMap (visitRaw body.ph true ref) := rfl
  rw [hmid] at hprops
  have key : ∀ k : String,
      k ∉ (["$ip", "page_title", "$pathname", "$current_url", "$host",
        "$process_person_profile", "$session_id"] : List String) →
      k ∉ entryKeys →
      propOf ev.properties k = propOfFirst (visitRaw body.ph true ref) k := by
    intro k hkA hkE
    rw [hprops, propOf_three_seg _ _ _ k (by rw [fixedSeg_keys]; exact hkA)
      (by rw [entrySeg_keys]; exact hkE),
      propOf_stripMap _ _ (visitRaw_keys_nodup _ _ _)]
  refine ⟨?_, ?_, ?_, ?_, ?_⟩
  · rw [key _ (by decide) (by decide)]
    simp [visitRaw, getUTMTags, propOfFirst_cons, hsrc]
  · rw [key _ (by decide) (by decide)]
    simp [visitRaw, getUTMTags, propOfFirst_cons, hmed]
  · rw [key _ (by decide) (by decide)]
    simp [visitRaw, getUTMTags, propOfFirst_cons, hcamp]
  · rw [key _ (by decide) (by decide)]
    simp [visitRaw, getUTMTags, propOfFirst_cons, hterm]
  · rw [key _ (by decide) (by decide)]
    simp [visitRaw, getUTMTags, propOfFirst_cons, hcont]

/-- Claim C2 witness: a concrete cookieless pageview with an empty query
string carries the organic entry defaults and no entry term key. -/
theorem c2_new_visitor_entry_organic_witness :
    propOf (evOk (pageHandler reqNone bodyPage0 "ga" "gs")).properties "$initial_utm_source"
      = some (.s "organic")
    ∧ propOf (evOk (pageHandler reqNone bodyPage0 "ga" "gs")).properties "$initial_utm_term"
      = none := by
  have h := c2_new_visitor_entry_organic reqNone bodyPage0 "ga" "gs"
    (evOk (pageHandler reqNone bodyPage0 "ga" "gs"))
    (dirsOk (pageHandler reqNone bodyPage0 "ga" "gs"))
    rfl rfl rfl rfl rfl rfl rfl rfl rfl
  exact ⟨h.1, h.2.2.2.1⟩

/-- Claim C6, counterexample: on a concrete NewVisitor pageview (no cookies)
with an empty query string, the current utm_source key is absent from the
composed properties — the current UTM block is not defaulted to
`"organic"`. -/
theorem c6_counterexample :
    isInitialSessionOf reqNone.cookies = true
    ∧ propOf (evOk (pageHandler reqNone bodyPage0 "ga" "gs")).properties "utm_source" = none :=
  ⟨rfl, rfl⟩

/-- Claim C6, amended: the current UTM block is never defaulted — for every
pageview whose query string has no utm_source the current utm_source key is
absent, for NewVisitor and NewSession alike; NewVisitor is distinguished only
in that it additionally populates the `$initial_*` entry block (whose source
defaults to `"organic"`), which is absent entirely when the request is not a
NewVisitor. -/
theorem c6_current_utm_not_defaulted (req : TelemetryReq) (body : PageBody) (g1 g2 : String)
    (ev : Event) (dirs : List CookieDirective)
    (hsrc : getParam body.ph.search "utm_source" = none)
    (hok : pageHandler req body g1 g2 = .ok (ev, dirs)) :
    propOf ev.properties "utm_source" = none
    ∧ (isInitialSessionOf req.cookies = true →
        propOf ev.properties "$initial_utm_source" = some (.s "organic"))
    ∧ (isInitialSessionOf req.cookies = false →
        propOf ev.properties "$initial_utm_source" = none) := by
  obtain ⟨ref, host, href, hhost, hev, _⟩ := pageHandler_inv _ _ _ _ _ _ hok
  have hprops : ev.properties = pageProps (pageIp req) body (getIdsFromCookies req.cookies g1 g2)
      (removeUndefinedValues (visitRaw body.ph (isInitialSessionOf req.cookies) ref)) host
      (hasActiveSessionOf req.cookies) := by rw [hev]
  unfold pageProps at hprops
  have hmid : (removeUndefinedValues (visitRaw body.ph (isInitialSessionOf req.cookies) ref)).map
      (fun p => (p.1, some p.2))
      = stripMap (visitRaw body.ph (isInitialSessionOf req.cookies) ref) := rfl
  rw [hmid] at hprops
  have key : ∀ k : String,
      k ∉ (["$ip", "page_title", "$pathname", "$current_url", "$host",
        "$process_person_profile", "$session_id"] : List String) →
      k ∉ entryKeys →
      propOf ev.properties k
        = propOfFirst (visitRaw body.ph (isInitialSessionOf req.cookies) ref) k := by
    intro k hkA hkE
    have hE : k ∉ ((if !(hasActiveSessionOf req.cookies) then
        entrySeg body.page_url body.pathname
          (removeUndefinedValues (visitRaw body.ph (isInitialSessionOf req.cookies) ref))
        else []).map Prod.fst) := by
      cases hasActiveSessionOf req.cookies
      · simp only [Bool.not_false, if_true, entrySeg_keys]
        exact hkE
      · simp
    rw [hprops, propOf_three_seg _ _ _ k (by rw [fixedSeg_keys]; exact hkA) hE,
      propOf_stripMap _ _ (visitRaw_keys_nodup _ _ _)]
  refine ⟨?_, ?_, ?_⟩
  · rw [key _ (by decide) (by decide)]
    cases hflag : isInitialSessionOf req.cookies <;>
      simp [visitRaw, getUTMTags, propOfFirst_cons, hsrc]
  · intro hflag
    rw [key _ (by decide) (by decide), hflag]
    simp [visitRaw, getUTMTags, propOfFirst_cons, hsrc]
  · intro hflag
    rw [key _ (by decide) (by decide), hflag]
    simp [visitRaw, getUTMTags, propOfFirst_cons, propOfFirst_nil]


/-- Claim C6 witness: a concrete cookieless pageview with an empty query
string has no current utm_source but carries the organic initial default. -/
theorem c6_current_utm_not_defaulted_witness :
    propOf (evOk (pageHandler reqNone bodyPage0 "ga" "gs")).properties "utm_source" = none
    ∧ propOf (evOk (pageHandler reqNone bodyPage0 "ga" "gs")).properties "$initial_utm_source"
      = some (.s "organic") := by
  have h := c6_current_utm_not_defaulted reqNone bodyPage0 "ga" "gs"
    (evOk (pageHandler reqNone bodyPage0 "ga" "gs"))
    (dirsOk (pageHandler reqNone bodyPage0 "ga" "gs"))
    rfl rfl
  exact ⟨h.1, h.2.1 rfl⟩

theorem pageleaveProps_keys (ip : Option String) (body : PageleaveBody) (ids : Ids)
    (host : String) :
    (pageleaveProps ip body ids host).map Prod.fst =
      ["page_title", "$current_url", "$host", "$pathname", "$exit_current_url",
       "$exit_pathname", "$process_person_profile", "$session_id", "$ip"] := rfl

/-- Claim C1, counterexample: a pageview request whose `session_id` cookie is
present but empty still gets the entry-attribution block, because the source
tests cookie truthiness (`!!req.cookies.session_id`), not presence; the claim
says a request with a session_id cookie must not include entry keys. -/
theorem c1_counterexample :
    lookupCookie reqEmptySess.cookies "session_id" = some ""
    ∧ propOf (evOk (pageHandler reqEmptySess bodyPage0 "ga" "gs")).properties "$entry_current_url"
        = some (.s "https://app.example.com/home") :=
  ⟨rfl, rfl⟩

/-- Claim C1, amended: `$entry_*` keys appear in a composed event exactly
when the event kind is pageview and the `session_id` cookie is absent or
empty (JS-falsy): a pageview with a truthy session cookie has no `$entry_*`
key; a pageview with a falsy one sets `$entry_current_url`/`$entry_pathname`
to the page URL/path; a custom event (with no entry keys among its caller
properties) and a pageleave never carry an `$entry_*` key; and pageleave
always sets `$exit_current_url` and `$exit_pathname` to the current page URL
and pathname. -/
theorem c1_entry_attribution (req : TelemetryReq) (pbody : PageBody) (ebody : EventBody)
    (lbody : PageleaveBody) (g1 g2 : String) (ev evE evL : Event)
    (dirs dirsE : List CookieDirective)
    (hokP : pageHandler req pbody g1 g2 = .ok (ev, dirs))
    (hokE : eventHandler req ebody g1 g2 = .ok (evE, dirsE))
    (hokL : pageleaveHandler req lbody g1 g2 = .ok evL)
    (hcustom : ∀ k ∈ entryKeys, k ∉ ebody.custom_properties.map Prod.fst) :
    (hasActiveSessionOf req.cookies = true →
      ∀ k ∈ entryKeys, propOf ev.properties k = none)
    ∧ (hasActiveSessionOf req.cookies = false →
      propOf ev.properties "$entry_current_url" = some (.s pbody.page_url)
      ∧ propOf ev.properties "$entry_pathname" = some (.s pbody.pathname))
    ∧ (∀ k ∈ entryKeys, propOf evE.properties k = none)
    ∧ (∀ k ∈ entryKeys, propOf evL.properties k = none)
    ∧ propOf evL.properties "$exit_current_url" = some (.s lbody.page_url)
    ∧ propOf evL.properties "$exit_pathname" = some (.s lbody.pathname) := by
  obtain ⟨refP, hostP, hrefP, hhostP, hevP, _⟩ := pageHandler_inv _ _ _ _ _ _ hokP
  obtain ⟨refE, hostE, hrefE, hhostE, hevE, _⟩ := eventHandler_inv _ _ _ _ _ _ hokE
  obtain ⟨hostL, hhostL, hevL⟩ := pageleaveHandler_inv _ _ _ _ _ hokL
  have hpropsP : ev.properties = pageProps (pageIp req) pbody (getIdsFromCookies req.cookies g1 g2)
      (removeUndefinedValues (visitRaw pbody.ph (isInitialSessionOf req.cookies) refP)) hostP
      (hasActiveSessionOf req.cookies) := by rw [hevP]
  have hpropsE : evE.properties = eventProps (jsOr req.xff req.remoteAddr) ebody
      (getIdsFromCookies req.cookies g1 g2)
      (removeUndefinedValues (visitRaw ebody.ph false refE)) hostE := by rw [hevE]
  have hpropsL : evL.properties = pageleaveProps (jsOr req.xff req.remoteAddr) lbody
      (getIdsFromCookies req.cookies g1 g2) hostL := by rw [hevL]
  unfold pageProps at hpropsP
  unfold eventProps at hpropsE
  have hmidP : (removeUndefinedValues (visitRaw pbody.ph (isInitialSessionOf req.cookies) refP)).map
      (fun p => (p.1, some p.2))
      = stripMap (visitRaw pbody.ph (isInitialSessionOf req.cookies) refP) := rfl
  have hmidE : (removeUndefinedValues (visitRaw ebody.ph false refE)).map
      (fun p => (p.1, some p.2)) = stripMap (visitRaw ebody.ph false refE) := rfl
  rw [hmidP] at hpropsP
  rw [hmidE] at hpropsE
  refine ⟨?_, ?_, ?_, ?_, ?_, ?_⟩
  · intro hact k hk
    have hflag : isInitialSessionOf req.cookies = false := by
      unfold hasActiveSessionOf at hact
      unfold isInitialSessionOf
      rw [hact]
      rfl
    rw [hflag] at hpropsP
    rw [hact] at hpropsP
    simp only [Bool.not_true] at hpropsP
    rw [if_neg (by decide)] at hpropsP
    rw [hpropsP, propOf_three_seg _ _ _ k
      (by rw [fixedSeg_keys]
          exact (show ∀ j ∈ entryKeys, j ∉ (["$ip", "page_title", "$pathname", "$current_url",
            "$host", "$process_person_profile", "$session_id"] : List String) by decide) k hk)
      (by simp),
      propOf_stripMap _ _ (visitRaw_keys_nodup _ _ _)]
    apply propOfFirst_eq_none
    rw [visitRaw_keys_false]
    exact (show ∀ j ∈ entryKeys, j ∉ (["$raw_user_agent", "$browser", "$browser_version",
      "$referrer", "$referring_domain", "$device_type", "$os", "$os_version", "$locale",
      "$viewport_height", "$viewport_width", "utm_source", "utm_medium", "utm_campaign",
      "utm_term", "utm_content"] : List String) by decide) k hk
  · intro hact
    rw [hact] at hpropsP
    simp only [Bool.not_false, if_true] at hpropsP
    constructor
    · rw [hpropsP]
      apply propOf_of_last_some
      simp [entrySeg, lookupLast_cons, lookupLast_nil, orO]
    · rw [hpropsP]
      apply propOf_of_last_some
      simp [entrySeg, lookupLast_cons, lookupLast_nil, orO]
  · intro k hk
    rw [hpropsE, propOf_three_seg _ _ _ k
      (by rw [fixedSeg_keys]
          exact (show ∀ j ∈ entryKeys, j ∉ (["$ip", "page_title", "$pathname", "$current_url",
            "$host", "$process_person_profile", "$session_id"] : List String) by decide) k hk)
      (hcustom k hk),
      propOf_stripMap _ _ (visitRaw_keys_nodup _ _ _)]
    apply propOfFirst_eq_none
    rw [visitRaw_keys_false]
    exact (show ∀ j ∈ entryKeys, j ∉ (["$raw_user_agent", "$browser", "$browser_version",
      "$referrer", "$referring_domain", "$device_type", "$os", "$os_version", "$locale",
      "$viewport_height", "$viewport_width", "utm_source", "utm_medium", "utm_campaign",
      "utm_term", "utm_content"] : List String) by decide) k hk
  · intro k hk
    rw [hpropsL]
    apply propOf_eq_none_of_not_mem
    rw [pageleaveProps_keys]
    exact (show ∀ j ∈ entryKeys, j ∉ (["page_title", "$current_url", "$host", "$pathname",
      "$exit_current_url", "$exit_pathname", "$process_person_profile", "$session_id",
      "$ip"] : List String) by decide) k hk
  · rw [hpropsL]
    simp [pageleaveProps, propOf, lookupLast_cons, lookupLast_nil, orO]
  · rw [hpropsL]
    simp [pageleaveProps, propOf, lookupLast_cons, lookupLast_nil, orO]


/-- Claim C1 witness: with a non-empty session cookie the concrete pageview
has no `$entry_current_url`, and the concrete pageleave carries the exit
mirror of the page URL. -/
theorem c1_entry_attribution_witness :
    propOf (evOk (pageHandler reqSess bodyPage0 "ga" "gs")).properties "$entry_current_url" = none
    ∧ propOf (plEvOk (pageleaveHandler reqSess bodyLeave0 "ga" "gs")).properties "$exit_current_url"
      = some (.s "https://app.example.com/home") := by
  have h := c1_entry_attribution reqSess bodyPage0 bodyEvent0 bodyLeave0 "ga" "gs"
    (evOk (pageHandler reqSess bodyPage0 "ga" "gs"))
    (evOk (eventHandler reqSess bodyEvent0 "ga" "gs"))
    (plEvOk (pageleaveHandler reqSess bodyLeave0 "ga" "gs"))
    (dirsOk (pageHandler reqSess bodyPage0 "ga" "gs"))
    (dirsOk (eventHandler reqSess bodyEvent0 "ga" "gs"))
    rfl rfl rfl (by decide)
  exact ⟨h.1 rfl "$entry_current_url" (by decide), h.2.2.2.2.1⟩
